import Mathlib

/-!
Verification of the glsl-repl pipeline (`src/src/App.tsx`).

The repository's only logic is the WebGL2 pipeline in `App.tsx`:
`shaderFromSource`, `createProgram`, `TriangleStripMesh`, the module-level
noise data, and the orchestrating `run` function.  We embed it shallowly:

* The WebGL backend (browser + GPU driver) is an oracle, `GLBackend`,
  supplying every observation the code makes of it: context availability,
  extension availability, compile/link statuses, info logs, truthiness of
  `getUniformLocation(program, 'noise')`, and the four floats written by
  `readPixels` (each represented by its JS default decimal rendering,
  which is what the code's `'' + x` produces).
* Every WebGL call the code performs is recorded as a `GLEvent`; `run`
  returns its output string, the (unchanged) module state, and the trace.
* The module-level `NoiseData` array (filled from `Math.random()` once at
  module load, lines 80-84 of App.tsx) is the `ModuleState`; `run` reads
  it and never writes it, exactly as the source does.
-/

namespace GlslRepl

/-- The two WebGL shader stages, as in `shaderFromSource`'s `type` argument. -/
inductive Stage where
  | vertex
  | fragment
  deriving DecidableEq

/-- Sampler parameter names used in `run` (lines 133-136 of App.tsx). -/
inductive SamplerPName where
  | minFilter
  | magFilter
  | wrapS
  | wrapT
  deriving DecidableEq

/-- Sampler parameter values used in `run`: `gl.NEAREST` and `gl.REPEAT`. -/
inductive SamplerPVal where
  | nearest
  | repeatWrap
  deriving DecidableEq

/-- Fixed-function capabilities disabled in `run` (lines 121-123). -/
inductive Cap where
  | blend
  | cullFace
  | depthTest
  deriving DecidableEq

/-- Pixel-store parameter names (lines 115-116). -/
inductive PackName where
  | packAlignment
  | unpackAlignment
  deriving DecidableEq

/-- A JS number as observed by this program: the code only ever turns the
floats it reads back (or uploads) into strings via `'' + x`, so we carry
each number's default decimal rendering. -/
structure JSNumber where
  asString : String
  deriving DecidableEq

/-- One WebGL call made by the code, with the arguments the claims are
about.  `texImage2D` records width, height and the uploaded data
(`none` models the `null` data pointer of the 1x1 output texture). -/
inductive GLEvent where
  | createCanvas
  | getContext (ok : Bool)
  | getExtension (name : String)
  | createBuffer
  | bindBuffer
  | bufferData (nFloats : Nat)
  | createShader (stage : Stage)
  | shaderSource (stage : Stage) (src : String)
  | compileShader (stage : Stage)
  | createProgram
  | attachShader (stage : Stage)
  | linkProgram
  | createTexture
  | bindTexture
  | texImage2D (w h : Nat) (data : Option (List JSNumber))
  | createFramebuffer
  | pixelStorei (pname : PackName) (v : Nat)
  | bindFramebuffer
  | viewport (x y w h : Nat)
  | framebufferTexture2D
  | drawBuffers (n : Nat)
  | disableCap (c : Cap)
  | useProgram
  | getUniformLocation (name : String)
  | uniform1i (v : Nat)
  | createSampler
  | samplerParameteri (pname : SamplerPName) (v : SamplerPVal)
  | bindSampler (unit : Nat)
  | enableVertexAttribArray (i : Nat)
  | vertexAttribPointer (index size : Nat) (normalized : Bool) (stride off : Nat)
  | disableVertexAttribArray (i : Nat)
  | drawArrays (first count : Nat)
  | readBuffer
  | readPixels (x y w h destLen : Nat)
  | canvasRemove
  deriving DecidableEq

/-- The oracle for everything the code observes of the WebGL backend. -/
structure GLBackend where
  webgl2Available : Bool
  extColorBufferFloat : Bool
  oesTextureFloatLinear : Bool
  createShaderOk : Stage → Bool
  compileStatus : Stage → String → Bool
  shaderInfoLog : Stage → String → Option String
  createProgramOk : Bool
  linkStatus : Bool
  programInfoLog : Option String
  noiseUniformPresent : Bool
  readData : Fin 4 → JSNumber

/-- Module-level mutable data of App.tsx: the only module-level binding
that is not a constant is `NoiseData` (lines 80-84). -/
structure ModuleState where
  noiseData : List JSNumber
  deriving DecidableEq

/-- `const NoiseWidth = 128;` (line 80). -/
def NoiseWidth : Nat := 128

/-- Module initialisation, lines 81-84: `NoiseData[i] = Math.random()` for
every index of the `NoiseWidth*NoiseWidth*4`-element array.  `random` is
the unseeded `Math.random` stream. -/
def moduleInit (random : Nat → JSNumber) : ModuleState :=
  { noiseData := (List.range (NoiseWidth * NoiseWidth * 4)).map random }

/-- The TS `Result<T>` union type (line 5 of App.tsx). -/
inductive Result (α : Type) where
  | ok (value : α)
  | err (message : String)
  deriving DecidableEq

/-- A compiled shader handle, tagged with its stage. -/
structure WebGLShader where
  stage : Stage
  deriving DecidableEq

/-- A linked program handle. -/
inductive WebGLProgram where
  | mk
  deriving DecidableEq

/-- JS `s || fallback` on a nullable string: `null` and the empty string
are falsy, any other string is returned verbatim. -/
def jsOrElse (s : Option String) (fallback : String) : String :=
  match s with
  | none => fallback
  | some t => if t = "" then fallback else t

def failedCreateShaderMsg : String := "Failed to create shader"
def unknownShaderErrorMsg : String := "Unknown shader error"
def failedCreateProgramMsg : String := "Failed to create program"
def unknownLinkingErrorMsg : String := "Unknown linking error"
def noWebGL2Msg : String := "WebGL2 not available"
def missingExtColorBufferFloatMsg : String := "Missing: EXT_color_buffer_float"
def missingOesTextureFloatLinearMsg : String := "Missing: OES_texture_float_linear"
def extColorBufferFloatName : String := "EXT_color_buffer_float"
def oesTextureFloatLinearName : String := "OES_texture_float_linear"
def noiseUniformName : String := "noise"
def resultSep : String := ", "

/-- Result-plus-trace of `shaderFromSource`. -/
structure CompileOutcome where
  res : Result WebGLShader
  trace : List GLEvent

/-- `shaderFromSource` (lines 7-20): create a stage-typed shader object
(early error if the backend returns null), submit the source, compile,
and on a false COMPILE_STATUS return the info log through JS `||` with
the fallback message. -/
def shaderFromSource (gl : GLBackend) (type : Stage) (sourceCode : String) : CompileOutcome :=
  if gl.createShaderOk type = false then
    { res := Result.err failedCreateShaderMsg
      trace := [GLEvent.createShader type] }
  else if gl.compileStatus type sourceCode = false then
    { res := Result.err (jsOrElse (gl.shaderInfoLog type sourceCode) unknownShaderErrorMsg)
      trace := [GLEvent.createShader type, GLEvent.shaderSource type sourceCode,
                GLEvent.compileShader type] }
  else
    { res := Result.ok { stage := type }
      trace := [GLEvent.createShader type, GLEvent.shaderSource type sourceCode,
                GLEvent.compileShader type] }

/-- Result-plus-trace of `createProgram`. -/
structure LinkOutcome where
  res : Result WebGLProgram
  trace : List GLEvent

/-- `createProgram` (lines 22-36): create a program object (early error on
null), attach every shader in order, link, and on a false LINK_STATUS
return the program info log through JS `||` with the fallback message. -/
def createProgram (gl : GLBackend) (shaders : List WebGLShader) : LinkOutcome :=
  if gl.createProgramOk = false then
    { res := Result.err failedCreateProgramMsg
      trace := [GLEvent.createProgram] }
  else if gl.linkStatus = false then
    { res := Result.err (jsOrElse gl.programInfoLog unknownLinkingErrorMsg)
      trace := GLEvent.createProgram ::
               (shaders.map (fun sh => GLEvent.attachShader sh.stage) ++ [GLEvent.linkProgram]) }
  else
    { res := Result.ok WebGLProgram.mk
      trace := GLEvent.createProgram ::
               (shaders.map (fun sh => GLEvent.attachShader sh.stage) ++ [GLEvent.linkProgram]) }

/-- The mesh object: the code keeps only the vertex count (`nVertices =
positions.length / 2`, line 42) besides the GPU buffer handle. -/
structure TriangleStripMesh where
  nVertices : Nat
  deriving DecidableEq

/-- The quad's vertex positions (lines 63-68). -/
def quadPositions : List Int := [-1, -1, -1, 1, 1, -1, 1, 1]

/-- The `TriangleStripMesh` constructor (lines 39-43): create the buffer
(field initialiser, line 59), bind it, upload the positions. -/
def TriangleStripMesh.make (positions : List Int) : TriangleStripMesh × List GLEvent :=
  ({ nVertices := positions.length / 2 },
   [GLEvent.createBuffer, GLEvent.bindBuffer, GLEvent.bufferData positions.length])

/-- `TriangleStripMesh.quad` (lines 62-69). -/
def TriangleStripMesh.quad : TriangleStripMesh × List GLEvent :=
  TriangleStripMesh.make quadPositions

/-- `bind()` (lines 44-54): rebind the vertex buffer, enable attribute 0
as 2 floats with stride 0 and offset 0, and explicitly disable
attributes 1 and 2. -/
def TriangleStripMesh.bindTrace : List GLEvent :=
  [GLEvent.bindBuffer,
   GLEvent.enableVertexAttribArray 0,
   GLEvent.vertexAttribPointer 0 2 false 0 0,
   GLEvent.disableVertexAttribArray 1,
   GLEvent.disableVertexAttribArray 2]

/-- `draw()` (lines 55-58): one TRIANGLE_STRIP draw of all vertices. -/
def TriangleStripMesh.drawTrace (mesh : TriangleStripMesh) : List GLEvent :=
  [GLEvent.drawArrays 0 mesh.nVertices]

/-- `QuadVertexShader` (lines 72-78), verbatim. -/
def QuadVertexShader : String :=
  "#version 300 es\nin vec2 vertexPosition;\n\nvoid main() \x7b\n  gl_Position = vec4(vertexPosition, 0.0, 1.0);\n\x7d\n"

/-- `DefaultShader` (lines 150-158), verbatim. -/
def DefaultShader : String :=
  "#version 300 es\nprecision highp float;\nout vec4 res;\nuniform sampler2D noise;\n\nvoid main() \x7b\n  res = texelFetch(noise, ivec2(0), 0) + 1.0;\n\x7d\n"

/-- Canvas creation and `getContext('webgl2')`, lines 87-88. -/
def ctxTrace (ok : Bool) : List GLEvent :=
  [GLEvent.createCanvas, GLEvent.getContext ok]

/-- Render-target and fixed-function setup, lines 111-124, in call order:
output texture (1x1 RGBA32F, null data), framebuffer, pack/unpack
alignment 4, framebuffer bind, viewport (0,0,1,1), colour attachment,
draw buffers, blend/cull/depth disabled, program use. -/
def targetSetupTrace : List GLEvent :=
  [GLEvent.createTexture, GLEvent.bindTexture, GLEvent.texImage2D 1 1 none,
   GLEvent.createFramebuffer,
   GLEvent.pixelStorei PackName.packAlignment 4,
   GLEvent.pixelStorei PackName.unpackAlignment 4,
   GLEvent.bindFramebuffer, GLEvent.viewport 0 0 1 1,
   GLEvent.framebufferTexture2D, GLEvent.drawBuffers 1,
   GLEvent.disableCap Cap.blend, GLEvent.disableCap Cap.cullFace,
   GLEvent.disableCap Cap.depthTest, GLEvent.useProgram]

/-- The noise-bind block, lines 128-137: noise texture creation, 128x128
RGBA32F upload of the module-level `NoiseData`, sampler uniform set to
unit 0, and a sampler object with nearest min/mag filtering and repeat
wrapping bound to unit 0. -/
def noiseBindTrace (m : ModuleState) : List GLEvent :=
  [GLEvent.createTexture, GLEvent.bindTexture,
   GLEvent.texImage2D NoiseWidth NoiseWidth (some m.noiseData),
   GLEvent.uniform1i 0, GLEvent.createSampler,
   GLEvent.samplerParameteri SamplerPName.minFilter SamplerPVal.nearest,
   GLEvent.samplerParameteri SamplerPName.magFilter SamplerPVal.nearest,
   GLEvent.samplerParameteri SamplerPName.wrapS SamplerPVal.repeatWrap,
   GLEvent.samplerParameteri SamplerPName.wrapT SamplerPVal.repeatWrap,
   GLEvent.bindSampler 0]

/-- What one call of `run` produces: the returned string, the module state
after the call, and the trace of WebGL calls made. -/
structure RunResult where
  output : String
  state : ModuleState
  trace : List GLEvent

/-- `run` (lines 86-148), in source order: canvas + context, the two
extension checks, quad construction, both stage compilations (both are
invoked before either result is inspected), vertex-then-fragment error
checks, link, target setup, the conditional noise bind keyed on the
truthiness of `getUniformLocation(program, 'noise')`, bind/draw,
readback of 4 floats at (0,0), and the `', '`-joined result string. -/
def run (gl : GLBackend) (shader : String) (m : ModuleState) : RunResult :=
  if gl.webgl2Available = false then
    { output := noWebGL2Msg, state := m, trace := ctxTrace false }
  else
    let t1 := ctxTrace true ++ [GLEvent.getExtension extColorBufferFloatName]
    if gl.extColorBufferFloat = false then
      { output := missingExtColorBufferFloatMsg, state := m, trace := t1 }
    else
      let t2 := t1 ++ [GLEvent.getExtension oesTextureFloatLinearName]
      if gl.oesTextureFloatLinear = false then
        { output := missingOesTextureFloatLinearMsg, state := m, trace := t2 }
      else
        let quadPair := TriangleStripMesh.quad
        let vsO := shaderFromSource gl Stage.vertex QuadVertexShader
        let fsO := shaderFromSource gl Stage.fragment shader
        let t3 := t2 ++ quadPair.2 ++ vsO.trace ++ fsO.trace
        match vsO.res with
        | Result.err msg => { output := msg, state := m, trace := t3 }
        | Result.ok vsh =>
          match fsO.res with
          | Result.err msg => { output := msg, state := m, trace := t3 }
          | Result.ok fsh =>
            let prO := createProgram gl [vsh, fsh]
            let t4 := t3 ++ prO.trace
            match prO.res with
            | Result.err msg => { output := msg, state := m, trace := t4 }
            | Result.ok _ =>
              let t5 := t4 ++ targetSetupTrace ++ [GLEvent.getUniformLocation noiseUniformName]
              let t6 := t5 ++ (if gl.noiseUniformPresent = true then noiseBindTrace m else [])
              let t7 := t6 ++ TriangleStripMesh.bindTrace ++ quadPair.1.drawTrace ++
                        [GLEvent.readBuffer, GLEvent.readPixels 0 0 1 1 4]
              let data := [gl.readData 0, gl.readData 1, gl.readData 2, gl.readData 3]
              { output := String.intercalate resultSep (data.map (fun x => x.asString))
                state := m
                trace := t7 ++ [GLEvent.canvasRemove] }

/-- Events that allocate a GPU object against the context. -/
def GLEvent.isCreate : GLEvent → Bool
  | GLEvent.createBuffer => true
  | GLEvent.createShader _ => true
  | GLEvent.createProgram => true
  | GLEvent.createTexture => true
  | GLEvent.createFramebuffer => true
  | GLEvent.createSampler => true
  | _ => false

/-- Shader-compilation events. -/
def GLEvent.isCompile : GLEvent → Bool
  | GLEvent.compileShader _ => true
  | _ => false

/-- Events belonging to the optional noise-resource bind: the 128-wide
texture upload, the sampler-uniform assignment, and the sampler object's
creation, configuration and binding.  (The output texture's upload has
width 1 and is excluded.) -/
def GLEvent.isNoiseBind : GLEvent → Bool
  | GLEvent.texImage2D w _ _ => decide (w = NoiseWidth)
  | GLEvent.uniform1i _ => true
  | GLEvent.createSampler => true
  | GLEvent.samplerParameteri _ _ => true
  | GLEvent.bindSampler _ => true
  | _ => false

/-- The noise data uploaded by a trace: the data of its first
`texImage2D` with width `NoiseWidth`, if any. -/
def noiseUpload : List GLEvent → Option (List JSNumber)
  | [] => none
  | GLEvent.texImage2D w _ d :: rest =>
      if w = NoiseWidth then d else noiseUpload rest
  | _ :: rest => noiseUpload rest

/-- Whether `pat` is an initial segment of `l` (over characters). -/
def startsWithChars : List Char → List Char → Bool
  | [], _ => true
  | _ :: _, [] => false
  | p :: ps, c :: cs => p == c && startsWithChars ps cs

/-- Whether `pat` occurs contiguously anywhere in `l`. -/
def occursIn (pat : List Char) : List Char → Bool
  | [] => startsWithChars pat []
  | c :: cs => startsWithChars pat (c :: cs) || occursIn pat cs

/-- Whether the string `pat` occurs contiguously in the string `s`. -/
def strOccurs (pat s : String) : Bool :=
  occursIn pat.toList s.toList

/-- `enableVertexAttribArray` events. -/
def GLEvent.isEnableAttr : GLEvent → Bool
  | GLEvent.enableVertexAttribArray _ => true
  | _ => false

/-- `vertexAttribPointer` events. -/
def GLEvent.isAttrPtr : GLEvent → Bool
  | GLEvent.vertexAttribPointer _ _ _ _ _ => true
  | _ => false

/-- `disableVertexAttribArray` events. -/
def GLEvent.isDisableAttr : GLEvent → Bool
  | GLEvent.disableVertexAttribArray _ => true
  | _ => false

/-- The full trace of a run in which the context, both extensions, both
compilations and the link all succeed (the only remaining backend
dependence is whether the `noise` uniform was reported present). -/
def successTrace (gl : GLBackend) (shader : String) (m : ModuleState) : List GLEvent :=
  ctxTrace true
  ++ [GLEvent.getExtension extColorBufferFloatName,
      GLEvent.getExtension oesTextureFloatLinearName]
  ++ TriangleStripMesh.quad.2
  ++ [GLEvent.createShader Stage.vertex,
      GLEvent.shaderSource Stage.vertex QuadVertexShader,
      GLEvent.compileShader Stage.vertex]
  ++ [GLEvent.createShader Stage.fragment,
      GLEvent.shaderSource Stage.fragment shader,
      GLEvent.compileShader Stage.fragment]
  ++ [GLEvent.createProgram, GLEvent.attachShader Stage.vertex,
      GLEvent.attachShader Stage.fragment, GLEvent.linkProgram]
  ++ targetSetupTrace
  ++ [GLEvent.getUniformLocation noiseUniformName]
  ++ (if gl.noiseUniformPresent = true then noiseBindTrace m else [])
  ++ TriangleStripMesh.bindTrace
  ++ TriangleStripMesh.quad.1.drawTrace
  ++ [GLEvent.readBuffer, GLEvent.readPixels 0 0 1 1 4, GLEvent.canvasRemove]

/-- On the all-successful path, `run` returns the joined readback strings,
leaves the module state unchanged, and produces `successTrace`. -/
theorem run_success (gl : GLBackend) (shader : String) (m : ModuleState)
    (hw : gl.webgl2Available = true)
    (he1 : gl.extColorBufferFloat = true)
    (he2 : gl.oesTextureFloatLinear = true)
    (hcv : gl.createShaderOk Stage.vertex = true)
    (hcf : gl.createShaderOk Stage.fragment = true)
    (hsv : gl.compileStatus Stage.vertex QuadVertexShader = true)
    (hsf : gl.compileStatus Stage.fragment shader = true)
    (hp : gl.createProgramOk = true)
    (hl : gl.linkStatus = true) :
    run gl shader m =
      { output := String.intercalate resultSep
          ([gl.readData 0, gl.readData 1, gl.readData 2, gl.readData 3].map
            (fun x => x.asString))
        state := m
        trace := successTrace gl shader m } := by
  simp [run, successTrace, shaderFromSource, createProgram, ctxTrace,
        TriangleStripMesh.quad, TriangleStripMesh.make, TriangleStripMesh.drawTrace,
        quadPositions, hw, he1, he2, hcv, hcf, hsv, hsf, hp, hl]

/-! ### Concrete scenario data used as witnesses and counterexamples -/

def twoStr : String := "2"
def halfStr : String := "0.5"
def twoTwoTwoTwoStr : String := "2, 2, 2, 2"
def vertexFailLog : String := "ERROR: vertex stage failed"
def fragmentFailLog : String := "ERROR: fragment stage failed"
def compileLogMsg : String := "ERROR: 0:1: syntax error"
def badSrc : String := "void mai"
def noiseDeclText : String := "uniform sampler2D noise;"
def vec4TwoText : String := "vec4(2.0)"

/-- The fragment shader the spec calls the default one. -/
def Vec4TwoShader : String :=
  "#version 300 es\nprecision highp float;\nout vec4 res;\n\nvoid main() \x7b\n  res = vec4(2.0);\n\x7d\n"

/-- A tiny module state for witnesses that never consult the noise data. -/
def mSmall : ModuleState := { noiseData := [] }

/-- A concrete `Math.random` stream and the module state it initialises. -/
def randStream : Nat → JSNumber := fun _ => { asString := halfStr }

def mInit : ModuleState := moduleInit randStream

/-- A backend on which everything succeeds, the `noise` uniform is
reported absent, and every readback channel renders as `"2"`. -/
def cbQuiet : GLBackend :=
  { webgl2Available := true
    extColorBufferFloat := true
    oesTextureFloatLinear := true
    createShaderOk := fun _ => true
    compileStatus := fun _ _ => true
    shaderInfoLog := fun _ _ => none
    createProgramOk := true
    linkStatus := true
    programInfoLog := none
    noiseUniformPresent := false
    readData := fun _ => { asString := twoStr } }

/-- Like `cbQuiet`, but the `noise` uniform is reported present. -/
def cbNoise : GLBackend :=
  { cbQuiet with noiseUniformPresent := true }

/-- A backend on which the vertex stage fails to compile (with a log)
while the fragment stage compiles fine. -/
def cbVertexFail : GLBackend :=
  { cbQuiet with
    compileStatus := fun st _ => match st with
      | Stage.vertex => false
      | Stage.fragment => true
    shaderInfoLog := fun st _ => match st with
      | Stage.vertex => some vertexFailLog
      | Stage.fragment => none }

/-- A backend on which both stages fail to compile, each with its own log. -/
def cbBothFail : GLBackend :=
  { cbQuiet with
    compileStatus := fun _ _ => false
    shaderInfoLog := fun st _ => match st with
      | Stage.vertex => some vertexFailLog
      | Stage.fragment => some fragmentFailLog }

/-- A backend for the diagnostic-text claim: compilation fails with a
non-empty log, linking fails with no log at all. -/
def cbLogs : GLBackend :=
  { cbQuiet with
    compileStatus := fun _ _ => false
    shaderInfoLog := fun _ _ => some compileLogMsg
    linkStatus := false }

/-- A backend missing the EXT_color_buffer_float capability. -/
def cbNoExt : GLBackend :=
  { cbQuiet with extColorBufferFloat := false }

/-! ### Claims -/

/-- Claim C10: every call to the quad's bind operation rebinds the vertex
buffer first, configures exactly one active vertex attribute — 2 floats,
not normalized, stride 0, offset 0, at slot 0 — and explicitly disables
attribute slots 1 and 2. -/
theorem c10_thm :
    TriangleStripMesh.bindTrace.head? = some GLEvent.bindBuffer ∧
    TriangleStripMesh.bindTrace.filter GLEvent.isEnableAttr =
      [GLEvent.enableVertexAttribArray 0] ∧
    TriangleStripMesh.bindTrace.filter GLEvent.isAttrPtr =
      [GLEvent.vertexAttribPointer 0 2 false 0 0] ∧
    TriangleStripMesh.bindTrace.filter GLEvent.isDisableAttr =
      [GLEvent.disableVertexAttribArray 1, GLEvent.disableVertexAttribArray 2] := by
  refine ⟨rfl, rfl, rfl, rfl⟩

/-- Claim C5: on a compile failure the diagnostic is the backend's compile
log verbatim when that log is non-empty, and "Unknown shader error" when
the backend supplies no log; on a link failure it is the link log
verbatim, or "Unknown linking error" when absent. -/
theorem c5_thm (gl : GLBackend) (stage : Stage) (src : String) (shaders : List WebGLShader)
    (hc : gl.createShaderOk stage = true)
    (hs : gl.compileStatus stage src = false)
    (hp : gl.createProgramOk = true)
    (hl : gl.linkStatus = false) :
    (∀ logText, gl.shaderInfoLog stage src = some logText → logText ≠ "" →
       (shaderFromSource gl stage src).res = Result.err logText) ∧
    (gl.shaderInfoLog stage src = none →
       (shaderFromSource gl stage src).res = Result.err unknownShaderErrorMsg) ∧
    (∀ logText, gl.programInfoLog = some logText → logText ≠ "" →
       (createProgram gl shaders).res = Result.err logText) ∧
    (gl.programInfoLog = none →
       (createProgram gl shaders).res = Result.err unknownLinkingErrorMsg) := by
  refine ⟨?_, ?_, ?_, ?_⟩
  · intro logText hlog hne
    simp [shaderFromSource, jsOrElse, hc, hs, hlog, hne]
  · intro hlog
    simp [shaderFromSource, jsOrElse, hc, hs, hlog]
  · intro logText hlog hne
    simp [createProgram, jsOrElse, hp, hl, hlog, hne]
  · intro hlog
    simp [createProgram, jsOrElse, hp, hl, hlog]

/-- Witness for C5 at a concrete backend: a non-empty compile log comes
back verbatim, and an absent link log yields the fixed fallback. -/
theorem c5_witness :
    (shaderFromSource cbLogs Stage.fragment badSrc).res = Result.err compileLogMsg ∧
    (createProgram cbLogs []).res = Result.err unknownLinkingErrorMsg := by
  have h := c5_thm cbLogs Stage.fragment badSrc [] rfl rfl rfl rfl
  exact ⟨h.1 compileLogMsg rfl (by decide), h.2.2.2 rfl⟩

/-- Claim C4: when either required capability extension is unavailable,
the run aborts before any shader compilation and before any GPU object
allocation — the trace carries zero compile events and zero creation
events, and the output is one of the early abort messages. -/
theorem c4_thm (gl : GLBackend) (s : String) (m : ModuleState)
    (h : gl.extColorBufferFloat = false ∨ gl.oesTextureFloatLinear = false) :
    (run gl s m).trace.filter GLEvent.isCompile = [] ∧
    (run gl s m).trace.filter GLEvent.isCreate = [] ∧
    ((run gl s m).output = noWebGL2Msg ∨
     (run gl s m).output = missingExtColorBufferFloatMsg ∨
     (run gl s m).output = missingOesTextureFloatLinearMsg) := by
  cases hw : gl.webgl2Available with
  | false =>
      simp [run, hw, ctxTrace, GLEvent.isCompile, GLEvent.isCreate]
  | true =>
      cases he1 : gl.extColorBufferFloat with
      | false =>
          simp [run, hw, he1, ctxTrace, GLEvent.isCompile, GLEvent.isCreate]
      | true =>
          cases he2 : gl.oesTextureFloatLinear with
          | false =>
              simp [run, hw, he1, he2, ctxTrace, GLEvent.isCompile, GLEvent.isCreate]
          | true =>
              rw [he1] at h
              rw [he2] at h
              rcases h with h | h <;> exact absurd h (by decide)

/-- Witness for C4: a backend without EXT_color_buffer_float compiles
nothing, allocates nothing, and reports the missing extension. -/
theorem c4_witness :
    (run cbNoExt DefaultShader mSmall).trace.filter GLEvent.isCompile = [] ∧
    (run cbNoExt DefaultShader mSmall).trace.filter GLEvent.isCreate = [] ∧
    ((run cbNoExt DefaultShader mSmall).output = noWebGL2Msg ∨
     (run cbNoExt DefaultShader mSmall).output = missingExtColorBufferFloatMsg ∨
     (run cbNoExt DefaultShader mSmall).output = missingOesTextureFloatLinearMsg) :=
  c4_thm cbNoExt DefaultShader mSmall (Or.inl rfl)

/-- Counterexample to C3 as stated: on a backend whose vertex-stage
compilation fails, the run does return the vertex diagnostic, yet the
fragment-stage compile operation has still been invoked — `run` compiles
both stages before inspecting either result (App.tsx lines 99-106). -/
theorem c3_counterexample :
    (run cbVertexFail DefaultShader mSmall).output = vertexFailLog ∧
    GLEvent.compileShader Stage.fragment ∈ (run cbVertexFail DefaultShader mSmall).trace := by
  constructor
  · rfl
  · decide

/-- Claim C3 (amended): when the vertex-stage compilation fails, the run
short-circuits on the vertex diagnostic — but only after both stages
have been submitted for compilation; the fragment-stage compile call is
still made (provided its shader object was created). -/
theorem c3_thm (gl : GLBackend) (s : String) (m : ModuleState)
    (hw : gl.webgl2Available = true)
    (he1 : gl.extColorBufferFloat = true)
    (he2 : gl.oesTextureFloatLinear = true)
    (hcv : gl.createShaderOk Stage.vertex = true)
    (hcf : gl.createShaderOk Stage.fragment = true)
    (hsv : gl.compileStatus Stage.vertex QuadVertexShader = false) :
    (run gl s m).output =
      jsOrElse (gl.shaderInfoLog Stage.vertex QuadVertexShader) unknownShaderErrorMsg ∧
    GLEvent.compileShader Stage.fragment ∈ (run gl s m).trace := by
  cases hsf : gl.compileStatus Stage.fragment s <;>
    simp [run, shaderFromSource, ctxTrace, TriangleStripMesh.quad, TriangleStripMesh.make,
          quadPositions, hw, he1, he2, hcv, hcf, hsv, hsf]

/-- Witness for C3 (amended) at the concrete vertex-failing backend. -/
theorem c3_witness :
    (run cbVertexFail DefaultShader mSmall).output =
      jsOrElse (cbVertexFail.shaderInfoLog Stage.vertex QuadVertexShader) unknownShaderErrorMsg ∧
    GLEvent.compileShader Stage.fragment ∈ (run cbVertexFail DefaultShader mSmall).trace :=
  c3_thm cbVertexFail DefaultShader mSmall rfl rfl rfl rfl rfl rfl

/-- Claim C7: when both stage compilations fail, the vertex result is
checked first and its diagnostic is the one returned. -/
theorem c7_thm (gl : GLBackend) (s : String) (m : ModuleState)
    (hw : gl.webgl2Available = true)
    (he1 : gl.extColorBufferFloat = true)
    (he2 : gl.oesTextureFloatLinear = true)
    (hcv : gl.createShaderOk Stage.vertex = true)
    (hcf : gl.createShaderOk Stage.fragment = true)
    (hsv : gl.compileStatus Stage.vertex QuadVertexShader = false)
    (hsf : gl.compileStatus Stage.fragment s = false) :
    (run gl s m).output =
      jsOrElse (gl.shaderInfoLog Stage.vertex QuadVertexShader) unknownShaderErrorMsg := by
  simp [run, shaderFromSource, ctxTrace, TriangleStripMesh.quad, TriangleStripMesh.make,
        quadPositions, hw, he1, he2, hcv, hcf, hsv, hsf]

/-- Witness for C7: with both stages failing and distinct logs, the
vertex-stage log is the one surfaced. -/
theorem c7_witness :
    (run cbBothFail badSrc mSmall).output = vertexFailLog := by
  have h := c7_thm cbBothFail badSrc mSmall rfl rfl rfl rfl rfl rfl rfl
  simpa [cbBothFail, cbQuiet, jsOrElse, vertexFailLog] using h

/-- Claim C8: on a successful run, the readback reads exactly 4 floats
from pixel (0,0) of the bound framebuffer (the `readPixels 0 0 1 1`
event with destination length 4), and the output is each channel's
default decimal string joined with ", ". -/
theorem c8_thm (gl : GLBackend) (s : String) (m : ModuleState)
    (hw : gl.webgl2Available = true)
    (he1 : gl.extColorBufferFloat = true)
    (he2 : gl.oesTextureFloatLinear = true)
    (hcv : gl.createShaderOk Stage.vertex = true)
    (hcf : gl.createShaderOk Stage.fragment = true)
    (hsv : gl.compileStatus Stage.vertex QuadVertexShader = true)
    (hsf : gl.compileStatus Stage.fragment s = true)
    (hp : gl.createProgramOk = true)
    (hl : gl.linkStatus = true) :
    (run gl s m).output =
      String.intercalate resultSep
        [(gl.readData 0).asString, (gl.readData 1).asString,
         (gl.readData 2).asString, (gl.readData 3).asString] ∧
    GLEvent.readPixels 0 0 1 1 4 ∈ (run gl s m).trace := by
  rw [run_success gl s m hw he1 he2 hcv hcf hsv hsf hp hl]
  refine ⟨rfl, ?_⟩
  simp [successTrace]

/-- Witness for C8: a concrete successful run whose channels all read
back as "2" outputs "2, 2, 2, 2" and contains the readback event. -/
theorem c8_witness :
    (run cbQuiet DefaultShader mSmall).output =
      String.intercalate resultSep
        [(cbQuiet.readData 0).asString, (cbQuiet.readData 1).asString,
         (cbQuiet.readData 2).asString, (cbQuiet.readData 3).asString] ∧
    GLEvent.readPixels 0 0 1 1 4 ∈ (run cbQuiet DefaultShader mSmall).trace :=
  c8_thm cbQuiet DefaultShader mSmall rfl rfl rfl rfl rfl rfl rfl rfl rfl

/-- Claim C6: on a successful run the optional noise bind — the 128x128
upload of the module noise data, sampler uniform set to unit 0, and a
sampler object with nearest min/mag filtering and repeat wrapping bound
to unit 0 — happens exactly when the backend reports a `noise` uniform
on the linked program; when it is absent no such event occurs and the
run still ends with the readback output rather than an error. -/
theorem c6_thm (gl : GLBackend) (s : String) (m : ModuleState)
    (hw : gl.webgl2Available = true)
    (he1 : gl.extColorBufferFloat = true)
    (he2 : gl.oesTextureFloatLinear = true)
    (hcv : gl.createShaderOk Stage.vertex = true)
    (hcf : gl.createShaderOk Stage.fragment = true)
    (hsv : gl.compileStatus Stage.vertex QuadVertexShader = true)
    (hsf : gl.compileStatus Stage.fragment s = true)
    (hp : gl.createProgramOk = true)
    (hl : gl.linkStatus = true) :
    (gl.noiseUniformPresent = true →
       (run gl s m).trace.filter GLEvent.isNoiseBind =
         [GLEvent.texImage2D NoiseWidth NoiseWidth (some m.noiseData),
          GLEvent.uniform1i 0, GLEvent.createSampler,
          GLEvent.samplerParameteri SamplerPName.minFilter SamplerPVal.nearest,
          GLEvent.samplerParameteri SamplerPName.magFilter SamplerPVal.nearest,
          GLEvent.samplerParameteri SamplerPName.wrapS SamplerPVal.repeatWrap,
          GLEvent.samplerParameteri SamplerPName.wrapT SamplerPVal.repeatWrap,
          GLEvent.bindSampler 0]) ∧
    (gl.noiseUniformPresent = false →
       (run gl s m).trace.filter GLEvent.isNoiseBind = [] ∧
       (run gl s m).output =
         String.intercalate resultSep
           [(gl.readData 0).asString, (gl.readData 1).asString,
            (gl.readData 2).asString, (gl.readData 3).asString]) := by
  rw [run_success gl s m hw he1 he2 hcv hcf hsv hsf hp hl]
  constructor
  · intro hn
    simp [successTrace, ctxTrace, targetSetupTrace, noiseBindTrace,
          TriangleStripMesh.quad, TriangleStripMesh.make, TriangleStripMesh.bindTrace,
          TriangleStripMesh.drawTrace, quadPositions, hn, GLEvent.isNoiseBind, NoiseWidth]
  · intro hn
    constructor
    · simp [successTrace, ctxTrace, targetSetupTrace,
            TriangleStripMesh.quad, TriangleStripMesh.make, TriangleStripMesh.bindTrace,
            TriangleStripMesh.drawTrace, quadPositions, hn, GLEvent.isNoiseBind, NoiseWidth]
    · rfl

/-- Witness for C6: the noise-reporting backend gets exactly the bind
block; the quiet backend gets none and still produces the readback. -/
theorem c6_witness :
    (run cbNoise DefaultShader mSmall).trace.filter GLEvent.isNoiseBind =
      [GLEvent.texImage2D NoiseWidth NoiseWidth (some mSmall.noiseData),
       GLEvent.uniform1i 0, GLEvent.createSampler,
       GLEvent.samplerParameteri SamplerPName.minFilter SamplerPVal.nearest,
       GLEvent.samplerParameteri SamplerPName.magFilter SamplerPVal.nearest,
       GLEvent.samplerParameteri SamplerPName.wrapS SamplerPVal.repeatWrap,
       GLEvent.samplerParameteri SamplerPName.wrapT SamplerPVal.repeatWrap,
       GLEvent.bindSampler 0] :=
  (c6_thm cbNoise DefaultShader mSmall rfl rfl rfl rfl rfl rfl rfl rfl rfl).1 rfl

/-- Counterexample to C1 as stated: the repository's fixed default
fragment shader is not `res = vec4(2.0);` — it contains the declaration
`uniform sampler2D noise;` and no `vec4(2.0)` at all, and a run of it on
a backend that reports the declared uniform does perform the
optional-resource bind. -/
theorem c1_counterexample :
    strOccurs noiseDeclText DefaultShader = true ∧
    strOccurs vec4TwoText DefaultShader = false ∧
    GLEvent.uniform1i 0 ∈ (run cbNoise DefaultShader mSmall).trace := by
  refine ⟨by decide, by decide, by decide⟩

/-- Claim C1 (amended): for a fragment shader for which the backend
reports no `noise` uniform (such as the spec's `res = vec4(2.0);`
shader, which declares none), the pipeline performs no optional-resource
bind and returns the joined readback — exactly "2, 2, 2, 2" when each
channel reads back as "2".  (The repository's actual default shader
declares a `noise` sampler, per the counterexample.) -/
theorem c1_thm (gl : GLBackend) (s : String) (m : ModuleState)
    (hw : gl.webgl2Available = true)
    (he1 : gl.extColorBufferFloat = true)
    (he2 : gl.oesTextureFloatLinear = true)
    (hcv : gl.createShaderOk Stage.vertex = true)
    (hcf : gl.createShaderOk Stage.fragment = true)
    (hsv : gl.compileStatus Stage.vertex QuadVertexShader = true)
    (hsf : gl.compileStatus Stage.fragment s = true)
    (hp : gl.createProgramOk = true)
    (hl : gl.linkStatus = true)
    (hn : gl.noiseUniformPresent = false)
    (hr : ∀ i : Fin 4, gl.readData i = { asString := twoStr }) :
    (run gl s m).output = twoTwoTwoTwoStr ∧
    (run gl s m).trace.filter GLEvent.isNoiseBind = [] := by
  rw [run_success gl s m hw he1 he2 hcv hcf hsv hsf hp hl]
  constructor
  · simp only [hr 0, hr 1, hr 2, hr 3]
    rfl
  · simp [successTrace, ctxTrace, targetSetupTrace,
          TriangleStripMesh.quad, TriangleStripMesh.make, TriangleStripMesh.bindTrace,
          TriangleStripMesh.drawTrace, quadPositions, hn, GLEvent.isNoiseBind, NoiseWidth]

/-- Witness for C1 (amended): the `res = vec4(2.0);` shader on the quiet
backend with all channels reading back "2". -/
theorem c1_witness :
    (run cbQuiet Vec4TwoShader mSmall).output = twoTwoTwoTwoStr ∧
    (run cbQuiet Vec4TwoShader mSmall).trace.filter GLEvent.isNoiseBind = [] :=
  c1_thm cbQuiet Vec4TwoShader mSmall rfl rfl rfl rfl rfl rfl rfl rfl rfl rfl
    (fun _ => rfl)

/-- Counterexample to C2 as stated: starting from the module state built
by module initialisation from a concrete `Math.random` stream, two
successive invocations of `run` upload exactly the same noise data — the
module-level array — so the channel values sampled from texel (0,0) are
identical across runs, not different: the data is generated once at
module load (App.tsx lines 80-84), never per run. -/
theorem c2_counterexample :
    noiseUpload (run cbNoise DefaultShader (run cbNoise DefaultShader mInit).state).trace =
      noiseUpload (run cbNoise DefaultShader mInit).trace ∧
    noiseUpload (run cbNoise DefaultShader mInit).trace = some mInit.noiseData :=
  ⟨rfl, rfl⟩

/-- Claim C2 (amended): the noise data is generated once at module
initialisation; `run` never regenerates it — every run leaves the module
state unchanged and, when the noise uniform is present, uploads exactly
the module-level data, so successive runs sample identical values. -/
theorem c2_thm (gl : GLBackend) (s : String) (m : ModuleState)
    (hw : gl.webgl2Available = true)
    (he1 : gl.extColorBufferFloat = true)
    (he2 : gl.oesTextureFloatLinear = true)
    (hcv : gl.createShaderOk Stage.vertex = true)
    (hcf : gl.createShaderOk Stage.fragment = true)
    (hsv : gl.compileStatus Stage.vertex QuadVertexShader = true)
    (hsf : gl.compileStatus Stage.fragment s = true)
    (hp : gl.createProgramOk = true)
    (hl : gl.linkStatus = true)
    (hn : gl.noiseUniformPresent = true) :
    (run gl s m).state = m ∧
    noiseUpload (run gl s m).trace = some m.noiseData := by
  rw [run_success gl s m hw he1 he2 hcv hcf hsv hsf hp hl]
  refine ⟨rfl, ?_⟩
  simp only [successTrace, hn, if_pos]
  rfl

/-- Witness for C2 (amended) at a concrete backend and module state. -/
theorem c2_witness :
    (run cbNoise DefaultShader mSmall).state = mSmall ∧
    noiseUpload (run cbNoise DefaultShader mSmall).trace = some mSmall.noiseData :=
  c2_thm cbNoise DefaultShader mSmall rfl rfl rfl rfl rfl rfl rfl rfl rfl rfl

/-- Claim C9: every GPU object created during a run is abandoned to the
teardown of the run-local context on every exit path: a run never
mutates the module state (whose only field is the noise data — no GPU
handle survives the call), and whenever a run allocates anything at all,
its trace begins with the acquisition of its own fresh context
(canvas creation and a successful `getContext`), the context that owns
every object created afterwards and that is dropped when `run`
returns. -/
theorem c9_thm (gl : GLBackend) (s : String) (m : ModuleState) :
    (run gl s m).state = m ∧
    ((run gl s m).trace.filter GLEvent.isCreate = [] ∨
     (run gl s m).trace.take 2 = [GLEvent.createCanvas, GLEvent.getContext true]) := by
  cases hw : gl.webgl2Available with
  | false =>
      refine ⟨?_, Or.inl ?_⟩ <;> simp [run, hw, ctxTrace, GLEvent.isCreate]
  | true =>
      have key : (run gl s m).state = m ∧
          (run gl s m).trace.take 2 = [GLEvent.createCanvas, GLEvent.getContext true] := by
        cases he1 : gl.extColorBufferFloat with
        | false => simp [run, hw, he1, ctxTrace]
        | true =>
            cases he2 : gl.oesTextureFloatLinear with
            | false => simp [run, hw, he1, he2, ctxTrace]
            | true =>
                cases hv : (shaderFromSource gl Stage.vertex QuadVertexShader).res with
                | err message =>
                    simp [run, hw, he1, he2, hv, ctxTrace,
                          TriangleStripMesh.quad, TriangleStripMesh.make, quadPositions]
                | ok value =>
                    cases hf : (shaderFromSource gl Stage.fragment s).res with
                    | err message =>
                        simp [run, hw, he1, he2, hv, hf, ctxTrace,
                              TriangleStripMesh.quad, TriangleStripMesh.make, quadPositions]
                    | ok fvalue =>
                        cases hpr : (createProgram gl [value, fvalue]).res with
                        | err message =>
                            simp [run, hw, he1, he2, hv, hf, hpr, ctxTrace,
                                  TriangleStripMesh.quad, TriangleStripMesh.make, quadPositions]
                        | ok pvalue =>
                            simp [run, hw, he1, he2, hv, hf, hpr, ctxTrace,
                                  TriangleStripMesh.quad, TriangleStripMesh.make, quadPositions]
      exact ⟨key.1, Or.inr key.2⟩

end GlslRepl
